import Mathlib

/-!
Verification of the OpenHantek6022 ISDS205B model specification
(openhantek/src/hantekdso/models/modelISDS205b.cpp) and of the
startup/shutdown sequence of the application entry point
(openhantek/src/main.cpp).

Shallow embedding conventions:
* C++ doubles that hold exact decimal constants (sample rates, volts per
  division, voltage-scale constants) are embedded as rational numbers;
  all the constants appearing in the source are exactly representable,
  and the conversion preserves order and arithmetic.  Decimal literals
  of the source are spelled as integer numerals or mkRat fractions of
  the same value (100e3 = 100000, 20e-3 = mkRat 20 1000, 21.5 =
  mkRat 215 10) so that they evaluate inside the kernel.
* unsigned integers are embedded as natural numbers; the one narrowing
  cast in the shutdown code, a truncating double-to-unsigned conversion
  of a nonnegative value, is embedded as the integer floor.
* Straight-line effectful code (the sequence of addCommand calls, the
  shutdown sequence of main) is embedded as the list of emitted events.
-/

namespace OpenHantek

/-- UINT_MAX of the 32-bit unsigned int used for record lengths. -/
def UINT_MAX : ℕ := 4294967295

/-- One entry of ControlSpecification::fixedSampleRates:
samplerate, sampleId, downsampling. -/
structure FixedSampleRate where
  samplerate : ℚ
  sampleId : ℕ
  downsampling : ℕ
deriving DecidableEq, Repr

/-- One of ControlSamplerateLimits single / multi: base rate, maximum
rate, allowed record lengths. -/
structure ControlSamplerateLimits where
  base : ℚ
  maxRate : ℚ
  recordLengths : List ℕ
deriving DecidableEq, Repr

/-- ControlSpecification::samplerate, the single- and multi-channel
sample-rate limits. -/
structure ControlSamplerates where
  single : ControlSamplerateLimits
  multi : ControlSamplerateLimits
deriving DecidableEq, Repr

/-- Dso::Coupling values used by the ISDS205B specification. -/
inductive Coupling
  | DC
  | AC
deriving DecidableEq, Repr

/-- Dso::TriggerMode values used by the ISDS205B specification. -/
inductive TriggerMode
  | AUTO
  | NORMAL
  | SINGLE
  | ROLL
deriving DecidableEq, Repr

/-- The fields of Dso::ControlSpecification that initSpecifications in
modelISDS205b.cpp assigns, plus the channel count passed to the
constructor.  gain pairs are (hardware gain id, volts per division);
voltageScale holds one scale table per channel. -/
structure ControlSpecification where
  channels : ℕ
  gain : List (ℕ × ℚ)
  voltageScale : List (List ℚ)
  samplerate : ControlSamplerates
  fixedSampleRates : List FixedSampleRate
  couplings : List Coupling
  hasACcoupling : Bool
  triggerModes : List TriggerMode
  fixedUSBinLength : ℕ
  calfreqSteps : List ℕ
  hasCalibrationEEPROM : Bool
deriving DecidableEq, Repr

/-- initSpecifications of modelISDS205b.cpp applied to the
Dso::ControlSpecification(2) that the ModelISDS205B constructor passes:
every field below is transcribed from the assignments in the source. -/
def initSpecifications : ControlSpecification where
  channels := 2
  -- source: { 10, 20e-3 }, { 10, 50e-3 }, { 10, 100e-3 }, { 5, 200e-3 },
  --         { 2, 500e-3 }, { 1, 1.00 }, { 1, 2.00 }, { 1, 5.00 }
  gain := [(10, mkRat 20 1000), (10, mkRat 50 1000), (10, mkRat 100 1000),
           (5, mkRat 200 1000), (2, mkRat 500 1000), (1, 1), (1, 2), (1, 5)]
  -- source (both channels): 1276, 1276, 1276, 90, 37, 21.5, 21.5, 21.5
  voltageScale :=
    [[1276, 1276, 1276, 90, 37, mkRat 215 10, mkRat 215 10, mkRat 215 10],
     [1276, 1276, 1276, 90, 37, mkRat 215 10, mkRat 215 10, mkRat 215 10]]
  -- source: single.base = 1e6, single.max = 30e6, multi.base = 1e6, multi.max = 15e6
  samplerate :=
    { single := { base := 1000000, maxRate := 30000000, recordLengths := [UINT_MAX] }
      multi := { base := 1000000, maxRate := 15000000, recordLengths := [UINT_MAX] } }
  -- source rates: 100e3, 200e3, 500e3, 1e6, 2e6, 7e6, 4e6, 8e6, 16e6, 24e6, 30e6, 48e6
  fixedSampleRates :=
    [ ⟨100000, 10, 1⟩,
      ⟨200000, 20, 1⟩,
      ⟨500000, 50, 1⟩,
      ⟨1000000, 1, 1⟩,
      ⟨2000000, 8, 4⟩,
      ⟨7000000, 24, 3⟩,
      ⟨4000000, 4, 1⟩,
      ⟨8000000, 8, 1⟩,
      ⟨16000000, 16, 1⟩,
      ⟨24000000, 24, 1⟩,
      ⟨30000000, 30, 1⟩,
      ⟨48000000, 48, 1⟩ ]
  couplings := [.DC, .AC]
  hasACcoupling := true
  triggerModes := [.AUTO, .NORMAL, .SINGLE, .ROLL]
  fixedUSBinLength := 0
  calfreqSteps := [100, 1000, 10000, 25000]
  hasCalibrationEEPROM := false

/-- The raw sample rates the device can capture at, from the comment in
modelISDS205b.cpp listing the possible raw sample rates of the custom
firmware: 20k, 40k, 50k, 64k, 100k, 200k, 400k, 500k, 1M, 2M, 3M, 4M,
5M, 6M, 8M, 10M, 12M, 15M, 16M, 24M, 30M, 48M. -/
def rawSampleRates : List ℚ :=
  [20000, 40000, 50000, 64000, 100000, 200000, 400000, 500000,
   1000000, 2000000, 3000000, 4000000, 5000000, 6000000, 8000000,
   10000000, 12000000, 15000000, 16000000, 24000000, 30000000, 48000000]

/-- The control commands that applyRequirements_ in modelISDS205b.cpp
registers, one tag per ControlXXX class. -/
inductive ControlCommandTag
  | setGain_CH1
  | setGain_CH2
  | setSamplerate
  | startSampling
  | setNumChannels
  | setCoupling
  | setCalFreq
deriving DecidableEq, Repr

/-- The USB control command code of each command, from the comment next
to each addCommand call in applyRequirements_. -/
def ControlCommandTag.code : ControlCommandTag → ℕ
  | .setGain_CH1 => 0xE0
  | .setGain_CH2 => 0xE1
  | .setSamplerate => 0xE2
  | .startSampling => 0xE3
  | .setNumChannels => 0xE4
  | .setCoupling => 0xE5
  | .setCalFreq => 0xE6

/-- applyRequirements_ of modelISDS205b.cpp as the list of addCommand
calls, in source order. -/
def applyRequirements_ : List ControlCommandTag :=
  [ .setGain_CH1,    -- 0xE0
    .setGain_CH2,    -- 0xE1
    .setSamplerate,  -- 0xE2
    .startSampling,  -- 0xE3
    .setNumChannels, -- 0xE4
    .setCoupling,    -- 0xE5
    .setCalFreq ]    -- 0xE6

/-! Device selection and libusb setup at the start of main
(main.cpp, the block guarded by `if ( !demoMode )`). -/

/-- Outcome of SelectSupportedDevice().showSelectDeviceModal (including
the later connectDevice call on a real device): no usable device, a
demo device, or a real device whose connectDevice call succeeds or
fails. -/
inductive SelectResult
  | noDevice
  | demoDevice
  | realDevice (connectOk : Bool)
deriving DecidableEq, Repr

/-- The device-related state main holds after the selection block:
whether demo mode is in effect, whether the libusb context is non-null,
and whether scopeDevice reports as a demo device. -/
structure DeviceSetup where
  demoMode : Bool
  contextActive : Bool
  deviceIsDemo : Bool
deriving DecidableEq, Repr

/-- The device-selection block of main (main.cpp lines 227-259).
Arguments: the demoMode command-line flag, whether libusb_init returns
an error, and the selection outcome.  Returns the exit code -1 on the
early-return paths, otherwise the DeviceSetup that the rest of main
(control thread, post processing, GUI) is built from. -/
def setupDevice (demoMode : Bool) (libusbInitError : Bool) (sel : SelectResult) :
    Except Int DeviceSetup :=
  if demoMode then
    -- else branch of `if ( !demoMode )`: new ScopeDevice(), a demo device,
    -- libusb_init was never called
    .ok { demoMode := true, contextActive := false, deviceIsDemo := true }
  else if libusbInitError then
    -- showLibUSBFailedDialogModel; return -1
    .error (-1)
  else
    match sel with
    | .demoDevice =>
      -- demoMode = true; libusb_exit( context ); context = nullptr
      .ok { demoMode := true, contextActive := false, deviceIsDemo := true }
    | .noDevice =>
      -- scopeDevice == nullptr: libusb_exit; return -1
      .error (-1)
    | .realDevice connectOk =>
      if connectOk then
        .ok { demoMode := false, contextActive := true, deviceIsDemo := false }
      else
        -- !connectDevice: libusb_exit; return -1
        .error (-1)

/-! Shutdown sequence of main (main.cpp lines 413-449), after the GUI
main loop returns. -/

/-- One step of the cleanup code at the end of main, in the order the
statements appear; the wait steps carry their timeout in ms. -/
inductive ShutdownStep
  | quitSampling
  | requestCapturingInterruption
  | waitCapturing (ms : ℕ)
  | quitDsoControlThread
  | waitDsoControlThread (ms : ℕ)
  | stopPostProcessing
  | quitPostProcessingThread
  | waitPostProcessingThread (ms : ℕ)
  | resetScopeDevice
  | libusbExit
deriving DecidableEq, Repr

/-- unsigned( 2000 * dsoControl.getSamplesize() / dsoControl.getSamplerate() ):
twice the record time in ms; the double-to-unsigned cast truncates the
nonnegative quotient, i.e. takes the floor. -/
def recordWaitMs (samplesize : ℕ) (samplerate : ℚ) : ℕ :=
  (⌊2000 * (samplesize : ℚ) / samplerate⌋).toNat

/-- waitForDso = qMax( waitForDso, 10000U ): the bounded shutdown wait,
at least 10 s. -/
def waitForDso (samplesize : ℕ) (samplerate : ℚ) : ℕ :=
  max (recordWaitMs samplesize samplerate) 10000

/-- The cleanup statements at the end of main in source order,
parametrized by the sample size and sample rate that determine the
wait bound and by whether the libusb context is still active (the
final libusb_exit is guarded by `if ( context )`; scopeDevice is
always non-null at this point, so its reset is unconditional). -/
def shutdownSequence (samplesize : ℕ) (samplerate : ℚ) (contextActive : Bool) :
    List ShutdownStep :=
  [ .quitSampling,
    .requestCapturingInterruption,
    .waitCapturing (waitForDso samplesize samplerate),
    .quitDsoControlThread,
    .waitDsoControlThread (waitForDso samplesize samplerate),
    .stopPostProcessing,
    .quitPostProcessingThread,
    .waitPostProcessingThread 10000,
    .resetScopeDevice ]
  ++ (if contextActive then [.libusbExit] else [])

/-! Theorems settling the claims. -/

/-- Claim C1, counterexample: the ISDS205B fixedSampleRates list is not
sorted ascending by rate — the 7 MS/s entry at index 5 precedes the
4 MS/s entry at index 6 — so the claimed sortedness invariant (and with
it the claimed fail-fast construction check) is false on the code. -/
theorem fixedSampleRates_sorted_refuted :
    (initSpecifications.fixedSampleRates[5]?).map FixedSampleRate.samplerate
        = some 7000000 ∧
    (initSpecifications.fixedSampleRates[6]?).map FixedSampleRate.samplerate
        = some 4000000 ∧
    ¬ initSpecifications.fixedSampleRates.Pairwise
        (fun a b => a.samplerate ≤ b.samplerate) := by decide

/-- Claim C1, amended: the ISDS205B fixedSampleRates list is sorted
ascending by rate except for the single 7 MS/s entry at index 5, which
exceeds its successor 4 MS/s; removing that entry yields a list sorted
ascending, and construction performs no sortedness validation — the
specification is built as written, all 12 entries included. -/
theorem fixedSampleRates_sorted_without_7MHz :
    (initSpecifications.fixedSampleRates.eraseIdx 5).Pairwise
        (fun a b => a.samplerate ≤ b.samplerate) ∧
    initSpecifications.fixedSampleRates[5]? = some ⟨7000000, 24, 3⟩ ∧
    ¬ initSpecifications.fixedSampleRates.Pairwise
        (fun a b => a.samplerate ≤ b.samplerate) ∧
    initSpecifications.fixedSampleRates.length = 12 := by decide

/-- Claim C2 (code bug at the 7 MS/s entry): every fixedSampleRates
entry except index 5 recovers a raw capture rate of the device — its
rate is (raw rate) x 1 / downsampling, with the raw rate in the
documented raw-rate list — but the entry at index 5, rate 7 MS/s with
sampleId 24 and downsampling 3, does not: 7e6 / 3 is not an integer,
and no raw rate r satisfies 7e6 = r x 3, although the comment on that
source line says 3x downsampling from 24 MS/s, which would give 8 MS/s. -/
theorem fixedSampleRates_7MHz_entry_inconsistent :
    initSpecifications.fixedSampleRates[5]? = some ⟨7000000, 24, 3⟩ ∧
    (¬ ∃ n : ℤ, (7000000 : ℚ) = (n : ℚ) * 3) ∧
    (¬ ∃ r ∈ rawSampleRates, (7000000 : ℚ) = r * 3) ∧
    (∀ e ∈ initSpecifications.fixedSampleRates.eraseIdx 5,
        ∃ r ∈ rawSampleRates, e.samplerate = r * (e.downsampling : ℚ)) := by
  refine ⟨by decide, ?_, ?_, ?_⟩
  · rintro ⟨n, hn⟩
    have h3 : (7000000 : ℤ) = n * 3 := by exact_mod_cast hn
    omega
  · rintro ⟨r, hr, he⟩
    simp only [rawSampleRates, List.mem_cons, List.not_mem_nil, or_false] at hr
    rcases hr with h|h|h|h|h|h|h|h|h|h|h|h|h|h|h|h|h|h|h|h|h|h <;> subst h <;>
      norm_num at he
  · intro e he
    have hl : initSpecifications.fixedSampleRates.eraseIdx 5 =
        [ ⟨100000, 10, 1⟩, ⟨200000, 20, 1⟩, ⟨500000, 50, 1⟩, ⟨1000000, 1, 1⟩,
          ⟨2000000, 8, 4⟩, ⟨4000000, 4, 1⟩, ⟨8000000, 8, 1⟩, ⟨16000000, 16, 1⟩,
          ⟨24000000, 24, 1⟩, ⟨30000000, 30, 1⟩, ⟨48000000, 48, 1⟩ ] := by decide
    rw [hl] at he
    simp only [List.mem_cons, List.not_mem_nil, or_false] at he
    rcases he with h|h|h|h|h|h|h|h|h|h|h <;> subst h
    · exact ⟨100000, by decide, by norm_num⟩
    · exact ⟨200000, by decide, by norm_num⟩
    · exact ⟨500000, by decide, by norm_num⟩
    · exact ⟨1000000, by decide, by norm_num⟩
    · exact ⟨500000, by decide, by norm_num⟩
    · exact ⟨4000000, by decide, by norm_num⟩
    · exact ⟨8000000, by decide, by norm_num⟩
    · exact ⟨16000000, by decide, by norm_num⟩
    · exact ⟨24000000, by decide, by norm_num⟩
    · exact ⟨30000000, by decide, by norm_num⟩
    · exact ⟨48000000, by decide, by norm_num⟩

/-- Claim C3, counterexample: in applyRequirements_ the StartSampling
command (code 0xE3) is added fourth, right after the sample-rate
command, and the calibration-frequency command is added last, so the
claimed order (calibration frequency before start, start last) is false
on the code. -/
theorem applyRequirements_start_not_last :
    applyRequirements_[3]? = some .startSampling ∧
    applyRequirements_.getLast? = some .setCalFreq ∧
    applyRequirements_.getLast? ≠ some .startSampling ∧
    ¬ (applyRequirements_.indexOf ControlCommandTag.setCalFreq <
        applyRequirements_.indexOf ControlCommandTag.startSampling) := by decide

/-- Claim C3, amended: applyRequirements_ adds the ControlCommands in
the fixed order gain CH1, gain CH2, sample-rate, start, channel-count,
coupling, calibration frequency — the command codes 0xE0 to 0xE6 in
strictly ascending order — so start is emitted fourth, immediately
after sample-rate and before channel-count, coupling and calibration
frequency, not last. -/
theorem applyRequirements_command_order :
    applyRequirements_ =
      [ .setGain_CH1, .setGain_CH2, .setSamplerate, .startSampling,
        .setNumChannels, .setCoupling, .setCalFreq ] ∧
    applyRequirements_.map ControlCommandTag.code =
      [0xE0, 0xE1, 0xE2, 0xE3, 0xE4, 0xE5, 0xE6] ∧
    (applyRequirements_.map ControlCommandTag.code).Pairwise (· < ·) := by decide

/-- Claim C4: the ISDS205B specification has 2 channels, its gain table
has 8 entries, and each channel's voltage-scale table has exactly as
many entries as the gain table, namely 8. -/
theorem gain_voltageScale_length_match :
    initSpecifications.channels = 2 ∧
    initSpecifications.gain.length = 8 ∧
    initSpecifications.voltageScale.map List.length =
      List.replicate initSpecifications.channels initSpecifications.gain.length := by
  decide

/-- Claim C5: on shutdown the acquisition side is granted a wait of
2 x record time — 2000 x samplesize / samplerate milliseconds, the
double-to-unsigned cast taking the floor — raised to an absolute
minimum of 10000 ms, and both the capturing-thread wait and the
dso-control-thread wait in the shutdown sequence use exactly this
bound. -/
theorem shutdown_wait_bounded (samplesize : ℕ) (samplerate : ℚ)
    (contextActive : Bool) :
    waitForDso samplesize samplerate =
      max ((⌊2000 * (samplesize : ℚ) / samplerate⌋).toNat) 10000 ∧
    10000 ≤ waitForDso samplesize samplerate ∧
    (shutdownSequence samplesize samplerate contextActive)[2]? =
      some (.waitCapturing (waitForDso samplesize samplerate)) ∧
    (shutdownSequence samplesize samplerate contextActive)[4]? =
      some (.waitDsoControlThread (waitForDso samplesize samplerate)) :=
  ⟨rfl, le_max_right _ _, rfl, rfl⟩

/-- Claim C6: in the shutdown sequence of main, quitSampling, the
capturing-thread interruption and wait, and the dso-control-thread quit
and wait occupy positions 0 to 4, all before postProcessing.stop at
position 5 and the post-processing thread quit and wait at positions 6
and 7 — the pipeline is stopped only after acquisition has stopped. -/
theorem shutdown_acquisition_stops_before_postprocessing
    (samplesize : ℕ) (samplerate : ℚ) (contextActive : Bool) :
    (shutdownSequence samplesize samplerate contextActive)[0]? =
      some .quitSampling ∧
    (shutdownSequence samplesize samplerate contextActive)[1]? =
      some .requestCapturingInterruption ∧
    (shutdownSequence samplesize samplerate contextActive)[2]? =
      some (.waitCapturing (waitForDso samplesize samplerate)) ∧
    (shutdownSequence samplesize samplerate contextActive)[3]? =
      some .quitDsoControlThread ∧
    (shutdownSequence samplesize samplerate contextActive)[4]? =
      some (.waitDsoControlThread (waitForDso samplesize samplerate)) ∧
    (shutdownSequence samplesize samplerate contextActive)[5]? =
      some .stopPostProcessing ∧
    (shutdownSequence samplesize samplerate contextActive)[6]? =
      some .quitPostProcessingThread ∧
    (shutdownSequence samplesize samplerate contextActive)[7]? =
      some (.waitPostProcessingThread 10000) :=
  ⟨rfl, rfl, rfl, rfl, rfl, rfl, rfl, rfl⟩

/-- Claim C7: when demo mode is requested on the command line, or the
device selection returns a demo device (with libusb_init having
succeeded), the selection block of main ends successfully with the
designated demo device — demo mode set, no libusb context, demo
specification — instead of returning the failure exit code, and the
rest of main proceeds to build the control and processing chain from
that DeviceSetup. -/
theorem demo_fallback_proceeds (demoMode libusbInitError : Bool)
    (sel : SelectResult)
    (h : demoMode = true ∨ (libusbInitError = false ∧ sel = .demoDevice)) :
    setupDevice demoMode libusbInitError sel =
      .ok { demoMode := true, contextActive := false, deviceIsDemo := true } := by
  rcases h with h | ⟨he, hs⟩
  · subst h; rfl
  · subst he; subst hs; cases demoMode <;> rfl

/-- Claim C7, witness: with the demo-mode flag unset, libusb_init
succeeding and the selection returning a demo device, the selection
block ends with the demo DeviceSetup. -/
theorem demo_fallback_proceeds_witness :
    setupDevice false false .demoDevice =
      .ok { demoMode := true, contextActive := false, deviceIsDemo := true } :=
  demo_fallback_proceeds false false .demoDevice (Or.inr ⟨rfl, rfl⟩)

/-- Claim C8: the ISDS205B gain table, a list of pairs of hardware gain
id and volts per division, is ordered ascending by volts per division:
for all indices i < j the volts-per-division of entry i is at most that
of entry j. -/
theorem gain_sorted_by_voltsPerDiv :
    initSpecifications.gain.Pairwise (fun a b => a.2 ≤ b.2) := by decide

/-- Claim C9: whenever the selection block of main succeeds with demo
mode in effect, the libusb context is not active — either libusb_init
was never called or the context was torn down when the demo device was
selected — and consequently the final cleanup sequence contains no
libusb_exit step. -/
theorem demo_mode_no_libusb_context (demoMode libusbInitError : Bool)
    (sel : SelectResult) (s : DeviceSetup)
    (h : setupDevice demoMode libusbInitError sel = Except.ok s)
    (hdemo : s.demoMode = true) :
    s.contextActive = false ∧
    ∀ (samplesize : ℕ) (samplerate : ℚ),
      ShutdownStep.libusbExit ∉
        shutdownSequence samplesize samplerate s.contextActive := by
  cases demoMode <;> cases libusbInitError <;> rcases sel with _ | _ | (_ | _) <;>
    first
      | exact Except.noConfusion h
      | (injection h with h2; subst h2;
         first
           | exact absurd hdemo (by decide)
           | exact ⟨rfl, fun samplesize samplerate => by simp [shutdownSequence]⟩)

/-- Claim C9, witness: for the command-line demo-mode path the
resulting DeviceSetup has no active libusb context and the cleanup
sequence contains no libusb_exit step. -/
theorem demo_mode_no_libusb_context_witness :
    (⟨true, false, true⟩ : DeviceSetup).contextActive = false ∧
    ∀ (samplesize : ℕ) (samplerate : ℚ),
      ShutdownStep.libusbExit ∉
        shutdownSequence samplesize samplerate
          (⟨true, false, true⟩ : DeviceSetup).contextActive :=
  demo_mode_no_libusb_context true false .noDevice ⟨true, false, true⟩ rfl rfl

/-- Claim C10: the ISDS205B fixedSampleRates list is not bounded by the
declared maximum sample rates — it contains the rates 24 MS/s, 30 MS/s
and 48 MS/s, each above the declared multi-channel maximum of 15 MS/s,
and 48 MS/s is above even the single-channel maximum of 30 MS/s. -/
theorem fixedSampleRates_exceed_declared_max :
    initSpecifications.samplerate.multi.maxRate = 15000000 ∧
    initSpecifications.samplerate.single.maxRate = 30000000 ∧
    (24000000 : ℚ) ∈ initSpecifications.fixedSampleRates.map
        FixedSampleRate.samplerate ∧
    (30000000 : ℚ) ∈ initSpecifications.fixedSampleRates.map
        FixedSampleRate.samplerate ∧
    (48000000 : ℚ) ∈ initSpecifications.fixedSampleRates.map
        FixedSampleRate.samplerate ∧
    initSpecifications.samplerate.multi.maxRate < 24000000 ∧
    initSpecifications.samplerate.multi.maxRate < 30000000 ∧
    initSpecifications.samplerate.multi.maxRate < 48000000 ∧
    initSpecifications.samplerate.single.maxRate < 48000000 := by decide

end OpenHantek
